import Mathlib

/-!
Shallow embedding of `src/url/ndjson_writer.py` (`NdjsonWriter.write`).

The writer invokes eight external metric evaluators (each
`calculate(url) -> result` with a `score` and a `latency_ms` attribute)
inside per-metric `try/except` blocks, combines the normalized values into a
weighted `NET_SCORE`, and assembles one output record.

Modelling choices:
* Python floats are modelled as `ℚ`; `round(x, 3)` is modelled as exact
  round-half-to-even at three decimals (`round3`).
* The behaviour of one evaluator call, as observed by `write`, is an
  `EvalOutcome`: the call raises, returns a falsy value (`None`), or returns
  a result whose `score` is `None`, a number, or a value `float()` rejects,
  together with an optional `latency_ms`.
* The `all_metrics` dict is an association list keyed by the fixed
  `MetricName` set; the final record is a structure whose serialized field
  list (`Record.fields`) mirrors the dict literal of the source.
* Writing and flushing the output stream is modelled as the event trace
  `writeTrace`.
-/

/-- Value found in the `score` attribute of an evaluator result:
`None`, a number (what `float(score)` evaluates to), or a value on which
`float(score)` raises. -/
inductive Score where
  | noneV : Score
  | num : ℚ → Score
  | invalid : Score
deriving DecidableEq

/-- Result object returned by an evaluator's `calculate`: a `score` and an
optional `latency_ms` (`none` models Python `None`). -/
structure MetricResult where
  score : Score
  latency_ms : Option ℤ
deriving DecidableEq

/-- Observable behaviour of one `calculate(url)` call: it raises, returns
`None` (a falsy object), or returns a `MetricResult`. -/
inductive EvalOutcome where
  | raises : EvalOutcome
  | retNone : EvalOutcome
  | ok : MetricResult → EvalOutcome
deriving DecidableEq

/-- The fixed metric-name set used as keys of `all_metrics` and `weights`. -/
inductive MetricName where
  | ramp_up_time
  | bus_factor
  | license
  | performance_claims
  | size_score
  | dataset_and_code_score
  | dataset_quality
  | code_quality
deriving DecidableEq, BEq

/-- Round-half-to-even to an integer, the rounding mode of Python `round`. -/
def roundHalfEven (q : ℚ) : ℤ :=
  if q - ⌊q⌋ < 1/2 then ⌊q⌋
  else if 1/2 < q - ⌊q⌋ then ⌊q⌋ + 1
  else if ⌊q⌋ % 2 = 0 then ⌊q⌋ else ⌊q⌋ + 1

/-- Python `round(x, 3)`. -/
def round3 (q : ℚ) : ℚ := (roundHalfEven (q * 1000) : ℚ) / 1000

/-- The expression `res.latency_ms if res.latency_ms else 0`: a missing or
falsy (zero) latency contributes `0`. -/
def latencyContrib (o : Option ℤ) : ℤ :=
  match o with
  | none => 0
  | some v => if v = 0 then 0 else v

/-- One standard metric block (used for `ramp_up_time`, `bus_factor`,
`size_score`, `dataset_and_code_score`, `dataset_quality`, `code_quality`):

```
try:
    res = self.calc.metrics[m].calculate(item.model_url)
    all_metrics[m] = round(float(res.score), 3) if res.score is not None else 0.0
    total_latency += res.latency_ms if res.latency_ms else 0
except Exception:
    all_metrics[m] = 0.0
```

Returns the value stored in `all_metrics` and the latency added to
`total_latency`. -/
def stdBlock (o : EvalOutcome) : ℚ × ℤ :=
  match o with
  | .raises => (0, 0)
  | .retNone => (0, 0)
  | .ok r =>
    match r.score with
    | .noneV => (0, latencyContrib r.latency_ms)
    | .num q => (round3 q, latencyContrib r.latency_ms)
    | .invalid => (0, 0)

/-- The `license` block, which lacks the `is not None` guard:
`all_metrics["license"] = round(float(lic_res.score), 3)`; a `None` score
makes `float` raise, landing in the `except` branch with zero latency. -/
def licenseBlock (o : EvalOutcome) : ℚ × ℤ :=
  match o with
  | .raises => (0, 0)
  | .retNone => (0, 0)
  | .ok r =>
    match r.score with
    | .noneV => (0, 0)
    | .num q => (round3 q, latencyContrib r.latency_ms)
    | .invalid => (0, 0)

/-- The `performance_claims` block:

```
try:
    pc_res = self.perf_metric.calculate(item.model_url)
    score = float(pc_res.score) if pc_res and pc_res.score is not None else 0.0
    all_metrics["performance_claims"] = 1.0 if score >= 0.5 else 0.0
    total_latency += pc_res.latency_ms if pc_res and pc_res.latency_ms else 0
except Exception:
    all_metrics["performance_claims"] = 0.0
```
-/
def perfBlock (o : EvalOutcome) : ℚ × ℤ :=
  match o with
  | .raises => (0, 0)
  | .retNone => (if (0:ℚ) ≥ 1/2 then 1 else 0, 0)
  | .ok r =>
    match r.score with
    | .noneV => (if (0:ℚ) ≥ 1/2 then 1 else 0, latencyContrib r.latency_ms)
    | .num q => (if q ≥ 1/2 then 1 else 0, latencyContrib r.latency_ms)
    | .invalid => (0, 0)

/-- Inputs of one `write` call: the artifact URL, the value of
`_hf_model_id_from_url(item.model_url)` (an external identity resolver,
`none` models Python `None`), and the behaviour of each evaluator. -/
structure Env where
  model_url : String
  resolved_id : Option String
  ramp_up_time : EvalOutcome
  bus_factor : EvalOutcome
  license : EvalOutcome
  performance_claims : EvalOutcome
  size_score : EvalOutcome
  dataset_and_code_score : EvalOutcome
  dataset_quality : EvalOutcome
  code_quality : EvalOutcome

/-- The `weights` dict of `write`, in source order. -/
def weights : List (MetricName × ℚ) :=
  [(.ramp_up_time, 15/100),
   (.bus_factor, 10/100),
   (.performance_claims, 15/100),
   (.license, 15/100),
   (.size_score, 15/100),
   (.dataset_and_code_score, 10/100),
   (.dataset_quality, 10/100),
   (.code_quality, 10/100)]

/-- The `all_metrics` dict after the eight blocks, in insertion order. -/
def allMetrics (env : Env) : List (MetricName × ℚ) :=
  [(.ramp_up_time, (stdBlock env.ramp_up_time).1),
   (.bus_factor, (stdBlock env.bus_factor).1),
   (.license, (licenseBlock env.license).1),
   (.performance_claims, (perfBlock env.performance_claims).1),
   (.size_score, (stdBlock env.size_score).1),
   (.dataset_and_code_score, (stdBlock env.dataset_and_code_score).1),
   (.dataset_quality, (stdBlock env.dataset_quality).1),
   (.code_quality, (stdBlock env.code_quality).1)]

/-- Final value of `total_latency` after the eight blocks. -/
def totalLatency (env : Env) : ℤ :=
  (stdBlock env.ramp_up_time).2 + (stdBlock env.bus_factor).2 +
  (licenseBlock env.license).2 + (perfBlock env.performance_claims).2 +
  (stdBlock env.size_score).2 + (stdBlock env.dataset_and_code_score).2 +
  (stdBlock env.dataset_quality).2 + (stdBlock env.code_quality).2

/-- The net-score accumulation loop:

```
net_score = 0.0
total_weight = 0.0
for metric, weight in weights.items():
    if metric in all_metrics:
        net_score += all_metrics[metric] * weight
        total_weight += weight
```

Returns `(net_score, total_weight)`. -/
def netScoreLoop (ms : List (MetricName × ℚ)) : ℚ × ℚ :=
  weights.foldl
    (fun acc mw =>
      match ms.lookup mw.1 with
      | some v => (acc.1 + v * mw.2, acc.2 + mw.2)
      | none => acc)
    (0, 0)

/-- The line `net_score = round(net_score / total_weight, 3) if total_weight > 0 else 0.0`. -/
def computeNetScore (ms : List (MetricName × ℚ)) : ℚ :=
  if (netScoreLoop ms).2 > 0 then round3 ((netScoreLoop ms).1 / (netScoreLoop ms).2) else 0

/-- NET_SCORE of one `write` call. -/
def netScoreOf (env : Env) : ℚ := computeNetScore (allMetrics env)

/-- The expression `_hf_model_id_from_url(item.model_url) or item.model_url`:
Python `or` falls back on any falsy value, so both `None` and the empty
string yield the raw URL. -/
def resolveName (resolved : Option String) (url : String) : String :=
  match resolved with
  | none => url
  | some s => if s = "" then url else s

/-- The output record built by `write` (the `record` dict). -/
structure Record where
  name : String
  category : String
  NET_SCORE : ℚ
  ramp_up_time : ℚ
  bus_factor : ℚ
  performance_claims : ℚ
  license : ℚ
  size_score : ℚ
  dataset_and_code_score : ℚ
  dataset_quality : ℚ
  code_quality : ℚ
  latency : ℤ
deriving DecidableEq

/-- The expression `all_metrics.get(m, 0.0)`. -/
def getD0 (ms : List (MetricName × ℚ)) (m : MetricName) : ℚ :=
  (ms.lookup m).getD 0

/-- The body of `NdjsonWriter.write`: run the eight fault-isolated metric
blocks, compute NET_SCORE, and assemble the record. -/
def write (env : Env) : Record :=
  { name := resolveName env.resolved_id env.model_url
  , category := "MODEL"
  , NET_SCORE := netScoreOf env
  , ramp_up_time := getD0 (allMetrics env) .ramp_up_time
  , bus_factor := getD0 (allMetrics env) .bus_factor
  , performance_claims := getD0 (allMetrics env) .performance_claims
  , license := getD0 (allMetrics env) .license
  , size_score := getD0 (allMetrics env) .size_score
  , dataset_and_code_score := getD0 (allMetrics env) .dataset_and_code_score
  , dataset_quality := getD0 (allMetrics env) .dataset_quality
  , code_quality := getD0 (allMetrics env) .code_quality
  , latency := max 1 (totalLatency env) }

/-- Value of one serialized JSON field. -/
inductive JVal where
  | str : String → JVal
  | num : ℚ → JVal
  | int : ℤ → JVal
deriving DecidableEq

/-- The serialized field list of the record, mirroring the dict literal of
the source (`json.dumps` preserves dict insertion order). -/
def Record.fields (r : Record) : List (String × JVal) :=
  [("name", .str r.name),
   ("category", .str r.category),
   ("NET_SCORE", .num r.NET_SCORE),
   ("ramp_up_time", .num r.ramp_up_time),
   ("bus_factor", .num r.bus_factor),
   ("performance_claims", .num r.performance_claims),
   ("license", .num r.license),
   ("size_score", .num r.size_score),
   ("dataset_and_code_score", .num r.dataset_and_code_score),
   ("dataset_quality", .num r.dataset_quality),
   ("code_quality", .num r.code_quality),
   ("latency", .int r.latency)]

/-- Events on the output stream. -/
inductive OutEvent where
  | line : Record → OutEvent
  | flush : OutEvent
deriving DecidableEq

/-- The tail of `write`: `self.out.write(json.dumps(record) + "\n")` followed
by `self.out.flush()`, as an event trace. -/
def writeTrace (env : Env) : List OutEvent :=
  [.line (write env), .flush]

/-- The raw numeric score carried by an evaluator outcome, when there is one:
`some q` exactly when the call returned a result whose `score` is the number
`q`; `none` for a raise, a falsy return, a `None` score, or an un-floatable
score. -/
def rawScore (o : EvalOutcome) : Option ℚ :=
  match o with
  | .ok r =>
    match r.score with
    | .num q => some q
    | _ => none
  | _ => none

/-- An evaluator outcome whose numeric raw score, if any, lies in `[0, 1]`. -/
def outcomeInRange (o : EvalOutcome) : Prop :=
  match o with
  | .ok r =>
    match r.score with
    | .num q => 0 ≤ q ∧ q ≤ 1
    | _ => True
  | _ => True

/-- Environment in which every evaluator returns normally, with the given
numeric score and optional latency per metric. -/
def mkOkEnv (url : String) (res : Option String)
    (qs : MetricName → ℚ) (ls : MetricName → Option ℤ) : Env :=
  { model_url := url
  , resolved_id := res
  , ramp_up_time := .ok ⟨.num (qs .ramp_up_time), ls .ramp_up_time⟩
  , bus_factor := .ok ⟨.num (qs .bus_factor), ls .bus_factor⟩
  , license := .ok ⟨.num (qs .license), ls .license⟩
  , performance_claims := .ok ⟨.num (qs .performance_claims), ls .performance_claims⟩
  , size_score := .ok ⟨.num (qs .size_score), ls .size_score⟩
  , dataset_and_code_score := .ok ⟨.num (qs .dataset_and_code_score), ls .dataset_and_code_score⟩
  , dataset_quality := .ok ⟨.num (qs .dataset_quality), ls .dataset_quality⟩
  , code_quality := .ok ⟨.num (qs .code_quality), ls .code_quality⟩ }

/-- Environment in which every evaluator raises. -/
def envAllRaise : Env :=
  { model_url := "https://example.com/m"
  , resolved_id := none
  , ramp_up_time := .raises
  , bus_factor := .raises
  , license := .raises
  , performance_claims := .raises
  , size_score := .raises
  , dataset_and_code_score := .raises
  , dataset_quality := .raises
  , code_quality := .raises }

/-- Environment in which the `ramp_up_time` evaluator returns a result with
`score = None` but `latency_ms = 10`, and every other evaluator raises. -/
def envMissingScore : Env :=
  { envAllRaise with ramp_up_time := .ok ⟨.noneV, some 10⟩ }

/-- Environment in which the `ramp_up_time` evaluator returns the
out-of-range score `2.0` and every other evaluator raises. -/
def envBigScore : Env :=
  { envAllRaise with ramp_up_time := .ok ⟨.num 2, none⟩ }

/-- Environment in which every evaluator returns score `0.5` with latency
`5`. -/
def envHalf : Env :=
  mkOkEnv "https://example.com/m" none (fun _ => 1/2) (fun _ => some 5)

/-- Environment whose URL the identity resolver maps to an identifier. -/
def envResolved : Env :=
  { envAllRaise with
      model_url := "https://huggingface.co/bert-base-uncased"
    , resolved_id := some "bert-base-uncased" }

/-- Environment whose URL the identity resolver cannot map to an
identifier. -/
def envUnresolved : Env :=
  { envAllRaise with model_url := "https://example.com/x", resolved_id := none }

/-! Helper lemmas. -/

/-- Each field of the record produced by `write`, unfolded (the `all_metrics`
lookups reduce structurally). -/
lemma write_name_eq (env : Env) :
    (write env).name = resolveName env.resolved_id env.model_url := rfl

lemma write_NET_eq (env : Env) : (write env).NET_SCORE = netScoreOf env := rfl

lemma write_ramp_eq (env : Env) :
    (write env).ramp_up_time = (stdBlock env.ramp_up_time).1 := rfl

lemma write_bus_eq (env : Env) :
    (write env).bus_factor = (stdBlock env.bus_factor).1 := rfl

lemma write_license_eq (env : Env) :
    (write env).license = (licenseBlock env.license).1 := rfl

lemma write_perf_eq (env : Env) :
    (write env).performance_claims = (perfBlock env.performance_claims).1 := rfl

lemma write_size_eq (env : Env) :
    (write env).size_score = (stdBlock env.size_score).1 := rfl

lemma write_dcs_eq (env : Env) :
    (write env).dataset_and_code_score = (stdBlock env.dataset_and_code_score).1 := rfl

lemma write_dq_eq (env : Env) :
    (write env).dataset_quality = (stdBlock env.dataset_quality).1 := rfl

lemma write_cq_eq (env : Env) :
    (write env).code_quality = (stdBlock env.code_quality).1 := rfl

lemma write_latency_eq (env : Env) :
    (write env).latency = max 1 (totalLatency env) := rfl

/-- The net-score loop over the always-complete `all_metrics` map, unfolded
into the explicit weighted sum and weight total. -/
lemma netScoreLoop_allMetrics (env : Env) :
    netScoreLoop (allMetrics env) =
      (0 + (stdBlock env.ramp_up_time).1 * (15/100) + (stdBlock env.bus_factor).1 * (10/100)
         + (perfBlock env.performance_claims).1 * (15/100) + (licenseBlock env.license).1 * (15/100)
         + (stdBlock env.size_score).1 * (15/100) + (stdBlock env.dataset_and_code_score).1 * (10/100)
         + (stdBlock env.dataset_quality).1 * (10/100) + (stdBlock env.code_quality).1 * (10/100),
       0 + 15/100 + 10/100 + 15/100 + 15/100 + 15/100 + 10/100 + 10/100 + 10/100) := rfl

/-- NET_SCORE in closed form: the total weight is `1`, so `write` always
takes the division branch. -/
lemma netScoreOf_eq (env : Env) :
    netScoreOf env =
      round3 ((stdBlock env.ramp_up_time).1 * (15/100) + (stdBlock env.bus_factor).1 * (10/100)
         + (perfBlock env.performance_claims).1 * (15/100) + (licenseBlock env.license).1 * (15/100)
         + (stdBlock env.size_score).1 * (15/100) + (stdBlock env.dataset_and_code_score).1 * (10/100)
         + (stdBlock env.dataset_quality).1 * (10/100) + (stdBlock env.code_quality).1 * (10/100)) := by
  unfold netScoreOf computeNetScore
  rw [netScoreLoop_allMetrics env]
  norm_num

/-- The latency conditional equals `Option.getD` with default `0`. -/
lemma latencyContrib_eq (o : Option ℤ) : latencyContrib o = o.getD 0 := by
  cases o with
  | none => rfl
  | some v =>
    by_cases h : v = 0 <;> simp [latencyContrib, h]

/-- Round-half-to-even of a nonnegative rational is nonnegative. -/
lemma roundHalfEven_nonneg (q : ℚ) (h : 0 ≤ q) : 0 ≤ roundHalfEven q := by
  have hf : (0:ℤ) ≤ ⌊q⌋ := Int.le_floor.mpr (by exact_mod_cast h)
  unfold roundHalfEven
  split_ifs <;> omega

/-- Round-half-to-even never exceeds an integer upper bound of its input. -/
lemma roundHalfEven_le (q : ℚ) (B : ℤ) (h : q ≤ (B:ℚ)) : roundHalfEven q ≤ B := by
  have hfl : ⌊q⌋ ≤ B := by
    have := Int.floor_le_floor h
    simpa using this
  have hq : (⌊q⌋:ℚ) ≤ q := Int.floor_le q
  unfold roundHalfEven
  split_ifs with h1 h2 h3
  · exact hfl
  · have hlt : (⌊q⌋:ℚ) < (B:ℚ) := by linarith
    have : ⌊q⌋ < B := by exact_mod_cast hlt
    omega
  · exact hfl
  · have hhalf : (1:ℚ)/2 ≤ q - ⌊q⌋ := le_of_not_lt h1
    have hlt : (⌊q⌋:ℚ) < (B:ℚ) := by linarith
    have : ⌊q⌋ < B := by exact_mod_cast hlt
    omega

/-- Rounding to three decimals preserves nonnegativity. -/
lemma round3_nonneg (q : ℚ) (h : 0 ≤ q) : 0 ≤ round3 q := by
  unfold round3
  have h0 : (0:ℚ) ≤ q * 1000 := by linarith
  have := roundHalfEven_nonneg (q * 1000) h0
  have hc : (0:ℚ) ≤ (roundHalfEven (q * 1000) : ℚ) := by exact_mod_cast this
  linarith

/-- Rounding to three decimals preserves the upper bound `1`. -/
lemma round3_le_one (q : ℚ) (h : q ≤ 1) : round3 q ≤ 1 := by
  unfold round3
  have h1000 : q * 1000 ≤ ((1000:ℤ):ℚ) := by push_cast; linarith
  have := roundHalfEven_le (q * 1000) 1000 h1000
  have hc : ((roundHalfEven (q * 1000)):ℚ) ≤ 1000 := by exact_mod_cast this
  linarith

/-- A standard block's stored value is in `[0, 1]` whenever the raw score,
if numeric, is. -/
lemma stdBlock_range (o : EvalOutcome) (h : outcomeInRange o) :
    0 ≤ (stdBlock o).1 ∧ (stdBlock o).1 ≤ 1 := by
  cases o with
  | raises => norm_num [stdBlock]
  | retNone => norm_num [stdBlock]
  | ok r =>
    obtain ⟨s, l⟩ := r
    cases s with
    | noneV => norm_num [stdBlock]
    | num q =>
      simp only [outcomeInRange] at h
      exact ⟨round3_nonneg q h.1, round3_le_one q h.2⟩
    | invalid => norm_num [stdBlock]

/-- The license block's stored value is in `[0, 1]` whenever the raw score,
if numeric, is. -/
lemma licenseBlock_range (o : EvalOutcome) (h : outcomeInRange o) :
    0 ≤ (licenseBlock o).1 ∧ (licenseBlock o).1 ≤ 1 := by
  cases o with
  | raises => norm_num [licenseBlock]
  | retNone => norm_num [licenseBlock]
  | ok r =>
    obtain ⟨s, l⟩ := r
    cases s with
    | noneV => norm_num [licenseBlock]
    | num q =>
      simp only [outcomeInRange] at h
      exact ⟨round3_nonneg q h.1, round3_le_one q h.2⟩
    | invalid => norm_num [licenseBlock]

/-- The performance block's stored value is always `0` or `1`, hence in
`[0, 1]`, for every evaluator behaviour. -/
lemma perfBlock_range (o : EvalOutcome) :
    0 ≤ (perfBlock o).1 ∧ (perfBlock o).1 ≤ 1 := by
  cases o with
  | raises => norm_num [perfBlock]
  | retNone => norm_num [perfBlock]
  | ok r =>
    obtain ⟨s, l⟩ := r
    cases s with
    | noneV => norm_num [perfBlock]
    | num q =>
      simp only [perfBlock]
      split_ifs <;> norm_num
    | invalid => norm_num [perfBlock]

/-! Claim theorems. -/

/-- C1: for every artifact, the NET_SCORE field of the emitted record equals
round-to-3-decimals of the weighted sum of the emitted metric values divided
by the sum of the weights of the present metrics (here all eight, with the
fixed weights of the source), and whenever the accumulated weight total is
zero the computed net score is `0.0` instead of failing. -/
theorem netScore_weighted_formula (env : Env) :
    ((write env).NET_SCORE =
      round3 (((write env).ramp_up_time * (15/100) + (write env).bus_factor * (10/100)
        + (write env).performance_claims * (15/100) + (write env).license * (15/100)
        + (write env).size_score * (15/100) + (write env).dataset_and_code_score * (10/100)
        + (write env).dataset_quality * (10/100) + (write env).code_quality * (10/100))
        / (15/100 + 10/100 + 15/100 + 15/100 + 15/100 + 10/100 + 10/100 + 10/100)))
    ∧ (∀ ms : List (MetricName × ℚ), (netScoreLoop ms).2 = 0 → computeNetScore ms = 0) := by
  constructor
  · rw [write_NET_eq, netScoreOf_eq, write_ramp_eq, write_bus_eq, write_perf_eq,
      write_license_eq, write_size_eq, write_dcs_eq, write_dq_eq, write_cq_eq]
    norm_num
  · intro ms h
    unfold computeNetScore
    rw [h]
    norm_num

/-- Witness for C1 at a concrete environment and the empty metrics map. -/
theorem netScore_weighted_formula_witness :
    computeNetScore ([] : List (MetricName × ℚ)) = 0 :=
  (netScore_weighted_formula envAllRaise).2 [] rfl

/-- C2: whenever one of the eight evaluators raises, the corresponding
metric of the emitted record is `0.0`, no exception escapes `write` (the
record is total for every behaviour), and one line is still written and
flushed. -/
theorem raising_evaluator_safe (env : Env) :
    (env.ramp_up_time = .raises → (write env).ramp_up_time = 0) ∧
    (env.bus_factor = .raises → (write env).bus_factor = 0) ∧
    (env.license = .raises → (write env).license = 0) ∧
    (env.performance_claims = .raises → (write env).performance_claims = 0) ∧
    (env.size_score = .raises → (write env).size_score = 0) ∧
    (env.dataset_and_code_score = .raises → (write env).dataset_and_code_score = 0) ∧
    (env.dataset_quality = .raises → (write env).dataset_quality = 0) ∧
    (env.code_quality = .raises → (write env).code_quality = 0) ∧
    writeTrace env = [.line (write env), .flush] := by
  refine ⟨fun h => ?_, fun h => ?_, fun h => ?_, fun h => ?_, fun h => ?_, fun h => ?_,
    fun h => ?_, fun h => ?_, rfl⟩
  · rw [write_ramp_eq, h]; rfl
  · rw [write_bus_eq, h]; rfl
  · rw [write_license_eq, h]; rfl
  · rw [write_perf_eq, h]; rfl
  · rw [write_size_eq, h]; rfl
  · rw [write_dcs_eq, h]; rfl
  · rw [write_dq_eq, h]; rfl
  · rw [write_cq_eq, h]; rfl

/-- Witness for C2: with every evaluator raising, all eight metrics are
zero and the record is still emitted as one line plus a flush. -/
theorem raising_evaluator_safe_witness :
    (write envAllRaise).ramp_up_time = 0 ∧ (write envAllRaise).bus_factor = 0 ∧
    (write envAllRaise).license = 0 ∧ (write envAllRaise).performance_claims = 0 ∧
    (write envAllRaise).size_score = 0 ∧ (write envAllRaise).dataset_and_code_score = 0 ∧
    (write envAllRaise).dataset_quality = 0 ∧ (write envAllRaise).code_quality = 0 ∧
    writeTrace envAllRaise = [.line (write envAllRaise), .flush] := by
  have h := raising_evaluator_safe envAllRaise
  exact ⟨h.1 rfl, h.2.1 rfl, h.2.2.1 rfl, h.2.2.2.1 rfl, h.2.2.2.2.1 rfl,
    h.2.2.2.2.2.1 rfl, h.2.2.2.2.2.2.1 rfl, h.2.2.2.2.2.2.2.1 rfl, h.2.2.2.2.2.2.2.2⟩

/-- C3: for every behaviour of the `performance_claims` evaluator the
emitted `performance_claims` field is `1.0` exactly when the raw score is a
number at least `0.5`, and `0.0` in every other case. -/
theorem perf_claims_binary (env : Env) :
    (write env).performance_claims =
      (match rawScore env.performance_claims with
       | some q => if q ≥ 1/2 then (1:ℚ) else 0
       | none => 0) := by
  rw [write_perf_eq]
  cases ho : env.performance_claims with
  | raises => simp [perfBlock, rawScore]
  | retNone => norm_num [perfBlock, rawScore]
  | ok r =>
    obtain ⟨s, l⟩ := r
    cases s with
    | noneV => norm_num [perfBlock, rawScore]
    | num q => simp [perfBlock, rawScore]
    | invalid => simp [perfBlock, rawScore]

/-- C4 counterexample: an evaluator that returns a result with a missing
(`None`) score and `latency_ms = 10` gets entry `0.0` but still contributes
`10` to the latency accumulator, so the total latency of such a run is `10`
rather than the floor value `1`. -/
theorem missing_score_latency_cex :
    (stdBlock (.ok ⟨Score.noneV, some 10⟩)).1 = 0 ∧
    (stdBlock (.ok ⟨Score.noneV, some 10⟩)).2 = 10 ∧
    (write envMissingScore).latency = 10 :=
  ⟨rfl, rfl, rfl⟩

/-- C4 amended: a raising evaluator, an un-floatable score, and (for the
`license` block only) a missing score yield entry `0.0` with zero latency
contribution; a missing score in the other blocks yields entry `0.0` while
its reported latency is still added. -/
theorem fault_absorption_amended (l : Option ℤ) :
    stdBlock .raises = (0, 0) ∧ licenseBlock .raises = (0, 0) ∧ perfBlock .raises = (0, 0) ∧
    stdBlock (.ok ⟨Score.invalid, l⟩) = (0, 0) ∧
    licenseBlock (.ok ⟨Score.invalid, l⟩) = (0, 0) ∧
    perfBlock (.ok ⟨Score.invalid, l⟩) = (0, 0) ∧
    licenseBlock (.ok ⟨Score.noneV, l⟩) = (0, 0) ∧
    stdBlock (.ok ⟨Score.noneV, l⟩) = (0, latencyContrib l) ∧
    perfBlock (.ok ⟨Score.noneV, l⟩) = (0, latencyContrib l) := by
  refine ⟨rfl, rfl, rfl, rfl, rfl, rfl, rfl, rfl, ?_⟩
  norm_num [perfBlock]

/-- C5: when every evaluator returns normally with a numeric score, the
latency field equals the sum of the reported per-metric latencies (absent
ones counting as zero) floored at `1`; and for every environment whatsoever
the latency field is at least `1`. -/
theorem latency_floor_sum (url : String) (res : Option String)
    (qs : MetricName → ℚ) (ls : MetricName → Option ℤ) (env : Env) :
    ((write (mkOkEnv url res qs ls)).latency =
      max 1 ((ls MetricName.ramp_up_time).getD 0 + (ls MetricName.bus_factor).getD 0
        + (ls MetricName.license).getD 0 + (ls MetricName.performance_claims).getD 0
        + (ls MetricName.size_score).getD 0 + (ls MetricName.dataset_and_code_score).getD 0
        + (ls MetricName.dataset_quality).getD 0 + (ls MetricName.code_quality).getD 0))
    ∧ 1 ≤ (write env).latency := by
  constructor
  · rw [write_latency_eq]
    have h : totalLatency (mkOkEnv url res qs ls) =
        latencyContrib (ls MetricName.ramp_up_time) + latencyContrib (ls MetricName.bus_factor)
        + latencyContrib (ls MetricName.license)
        + latencyContrib (ls MetricName.performance_claims)
        + latencyContrib (ls MetricName.size_score)
        + latencyContrib (ls MetricName.dataset_and_code_score)
        + latencyContrib (ls MetricName.dataset_quality)
        + latencyContrib (ls MetricName.code_quality) := rfl
    rw [h]
    simp only [latencyContrib_eq]
  · rw [write_latency_eq]
    exact le_max_left 1 _

/-- C6 counterexample: an evaluator returning the raw score `2.0` makes the
emitted `ramp_up_time` field `2.0`, outside `[0, 1]` — the writer does not
clamp metric values. -/
theorem metric_out_of_range_cex :
    (write envBigScore).ramp_up_time = 2 ∧ ¬ (write envBigScore).ramp_up_time ≤ 1 := by
  have h : (write envBigScore).ramp_up_time = round3 2 := rfl
  have h2 : round3 (2:ℚ) = 2 := by norm_num [round3, roundHalfEven]
  rw [h, h2]
  norm_num

/-- C6 amended: provided every evaluator's numeric raw score lies in
`[0, 1]`, every numeric metric field of the emitted record — the eight
metric values and NET_SCORE — lies in `[0, 1]` (all fields are present by
construction of the record, and every modelled value is a finite rational). -/
theorem metric_fields_in_range_amended (env : Env)
    (h1 : outcomeInRange env.ramp_up_time) (h2 : outcomeInRange env.bus_factor)
    (h3 : outcomeInRange env.license) (h4 : outcomeInRange env.size_score)
    (h5 : outcomeInRange env.dataset_and_code_score)
    (h6 : outcomeInRange env.dataset_quality) (h7 : outcomeInRange env.code_quality) :
    (0 ≤ (write env).ramp_up_time ∧ (write env).ramp_up_time ≤ 1) ∧
    (0 ≤ (write env).bus_factor ∧ (write env).bus_factor ≤ 1) ∧
    (0 ≤ (write env).performance_claims ∧ (write env).performance_claims ≤ 1) ∧
    (0 ≤ (write env).license ∧ (write env).license ≤ 1) ∧
    (0 ≤ (write env).size_score ∧ (write env).size_score ≤ 1) ∧
    (0 ≤ (write env).dataset_and_code_score ∧ (write env).dataset_and_code_score ≤ 1) ∧
    (0 ≤ (write env).dataset_quality ∧ (write env).dataset_quality ≤ 1) ∧
    (0 ≤ (write env).code_quality ∧ (write env).code_quality ≤ 1) ∧
    (0 ≤ (write env).NET_SCORE ∧ (write env).NET_SCORE ≤ 1) := by
  have R1 := stdBlock_range env.ramp_up_time h1
  have R2 := stdBlock_range env.bus_factor h2
  have RL := licenseBlock_range env.license h3
  have RP := perfBlock_range env.performance_claims
  have R5 := stdBlock_range env.size_score h4
  have R6 := stdBlock_range env.dataset_and_code_score h5
  have R7 := stdBlock_range env.dataset_quality h6
  have R8 := stdBlock_range env.code_quality h7
  refine ⟨?_, ?_, ?_, ?_, ?_, ?_, ?_, ?_, ?_⟩
  · rw [write_ramp_eq]; exact R1
  · rw [write_bus_eq]; exact R2
  · rw [write_perf_eq]; exact RP
  · rw [write_license_eq]; exact RL
  · rw [write_size_eq]; exact R5
  · rw [write_dcs_eq]; exact R6
  · rw [write_dq_eq]; exact R7
  · rw [write_cq_eq]; exact R8
  · rw [write_NET_eq, netScoreOf_eq]
    have w15 : (0:ℚ) ≤ 15/100 := by norm_num
    have w10 : (0:ℚ) ≤ 10/100 := by norm_num
    have m1 := mul_nonneg R1.1 w15
    have m2 := mul_nonneg R2.1 w10
    have m3 := mul_nonneg RP.1 w15
    have m4 := mul_nonneg RL.1 w15
    have m5 := mul_nonneg R5.1 w15
    have m6 := mul_nonneg R6.1 w10
    have m7 := mul_nonneg R7.1 w10
    have m8 := mul_nonneg R8.1 w10
    have u1 := mul_le_mul_of_nonneg_right R1.2 w15
    have u2 := mul_le_mul_of_nonneg_right R2.2 w10
    have u3 := mul_le_mul_of_nonneg_right RP.2 w15
    have u4 := mul_le_mul_of_nonneg_right RL.2 w15
    have u5 := mul_le_mul_of_nonneg_right R5.2 w15
    have u6 := mul_le_mul_of_nonneg_right R6.2 w10
    have u7 := mul_le_mul_of_nonneg_right R7.2 w10
    have u8 := mul_le_mul_of_nonneg_right R8.2 w10
    constructor
    · exact round3_nonneg _ (by linarith)
    · exact round3_le_one _ (by rw [one_mul] at u1 u2 u3 u4 u5 u6 u7 u8; linarith)

/-- Witness for C6 amended at an environment where every evaluator returns
score `0.5` with latency `5`. -/
theorem metric_fields_in_range_amended_witness :
    (0 ≤ (write envHalf).ramp_up_time ∧ (write envHalf).ramp_up_time ≤ 1) ∧
    (0 ≤ (write envHalf).bus_factor ∧ (write envHalf).bus_factor ≤ 1) ∧
    (0 ≤ (write envHalf).performance_claims ∧ (write envHalf).performance_claims ≤ 1) ∧
    (0 ≤ (write envHalf).license ∧ (write envHalf).license ≤ 1) ∧
    (0 ≤ (write envHalf).size_score ∧ (write envHalf).size_score ≤ 1) ∧
    (0 ≤ (write envHalf).dataset_and_code_score ∧ (write envHalf).dataset_and_code_score ≤ 1) ∧
    (0 ≤ (write envHalf).dataset_quality ∧ (write envHalf).dataset_quality ≤ 1) ∧
    (0 ≤ (write envHalf).code_quality ∧ (write envHalf).code_quality ≤ 1) ∧
    (0 ≤ (write envHalf).NET_SCORE ∧ (write envHalf).NET_SCORE ≤ 1) :=
  metric_fields_in_range_amended envHalf
    (by norm_num [envHalf, mkOkEnv, outcomeInRange])
    (by norm_num [envHalf, mkOkEnv, outcomeInRange])
    (by norm_num [envHalf, mkOkEnv, outcomeInRange])
    (by norm_num [envHalf, mkOkEnv, outcomeInRange])
    (by norm_num [envHalf, mkOkEnv, outcomeInRange])
    (by norm_num [envHalf, mkOkEnv, outcomeInRange])
    (by norm_num [envHalf, mkOkEnv, outcomeInRange])

/-- C7: when all eight evaluators succeed with score `1.0` and latency `10`,
the emitted record has NET_SCORE `1.0`, latency `80` and
`performance_claims` `1.0`, for any artifact URL. -/
theorem perfect_scores_example (url : String) (res : Option String) :
    (write (mkOkEnv url res (fun _ => 1) (fun _ => some 10))).NET_SCORE = 1 ∧
    (write (mkOkEnv url res (fun _ => 1) (fun _ => some 10))).latency = 80 ∧
    (write (mkOkEnv url res (fun _ => 1) (fun _ => some 10))).performance_claims = 1 := by
  have hr3 : round3 (1:ℚ) = 1 := by norm_num [round3, roundHalfEven]
  refine ⟨?_, rfl, ?_⟩
  · rw [write_NET_eq, netScoreOf_eq]
    simp only [mkOkEnv, stdBlock, licenseBlock, perfBlock]
    rw [if_pos (by norm_num : (1:ℚ) ≥ 1/2)]
    norm_num [hr3]
  · rw [write_perf_eq]
    simp only [mkOkEnv, perfBlock]
    rw [if_pos (by norm_num : (1:ℚ) ≥ 1/2)]

/-- C8: the name field equals the resolver's identifier whenever it yields a
non-empty one, and equals the raw input URL when the resolver yields no
identifier (Python `None`, or the falsy empty string). -/
theorem name_resolution (env : Env) :
    (∀ s, env.resolved_id = some s → s ≠ "" → (write env).name = s) ∧
    (env.resolved_id = none → (write env).name = env.model_url) ∧
    (env.resolved_id = some "" → (write env).name = env.model_url) := by
  refine ⟨fun s hs hne => ?_, fun h => ?_, fun h => ?_⟩
  · rw [write_name_eq, hs]; simp [resolveName, hne]
  · rw [write_name_eq, h]; rfl
  · rw [write_name_eq, h]; simp [resolveName]

/-- Witness for C8: a resolved URL gets the identifier as name, an
unresolved one gets the raw URL. -/
theorem name_resolution_witness :
    (write envResolved).name = "bert-base-uncased" ∧
    (write envUnresolved).name = "https://example.com/x" :=
  ⟨(name_resolution envResolved).1 "bert-base-uncased" rfl (by decide),
   (name_resolution envUnresolved).2.1 rfl⟩

/-- C9: every emitted record serializes exactly the twelve keys of the
external contract, in the fixed source order, and its category field is the
constant string MODEL, for every input. -/
theorem record_schema_fixed (env : Env) :
    (write env).fields.map Prod.fst =
      ["name", "category", "NET_SCORE", "ramp_up_time", "bus_factor", "performance_claims",
       "license", "size_score", "dataset_and_code_score", "dataset_quality", "code_quality",
       "latency"] ∧
    (write env).category = "MODEL" :=
  ⟨rfl, rfl⟩

/-- C10: after the eight blocks the metrics map always contains every metric
name, the accumulated weight total is exactly `1` (hence positive), and the
net score is always computed by the division branch — the degenerate
`total_weight = 0` branch is unreachable in `write`. -/
theorem degenerate_branch_unreachable (env : Env) :
    (∀ m : MetricName, ((allMetrics env).lookup m).isSome = true) ∧
    (netScoreLoop (allMetrics env)).2 = 1 ∧
    0 < (netScoreLoop (allMetrics env)).2 ∧
    netScoreOf env =
      round3 ((netScoreLoop (allMetrics env)).1 / (netScoreLoop (allMetrics env)).2) := by
  have htw : (netScoreLoop (allMetrics env)).2 = 1 := by
    rw [netScoreLoop_allMetrics]
    norm_num
  refine ⟨fun m => ?_, htw, ?_, ?_⟩
  · cases m <;> rfl
  · rw [htw]; norm_num
  · unfold netScoreOf computeNetScore
    rw [if_pos (show (netScoreLoop (allMetrics env)).2 > 0 by rw [htw]; norm_num)]
